import Mathlib

/-!
Verification development for `phylophlan_write_config_file.py`.

The file shallowly embeds the script's executable locator
(`find_executable`), the per-stage option-map builders from `__main__`,
and the overall generation flow (parameter checks, stage construction,
config emission), and proves theorems about them settling the spec
claims.  Python dictionaries are modelled as association lists in
insertion order; the filesystem is modelled by the attributes the
script actually inspects (`os.listdir`, `os.path.realpath`,
`os.path.exists`, `os.path.isdir`, the owner-execute stat bit).
-/

namespace Phylo

/-- One directory entry as the locator observes it: the entry name `f`,
the canonical path `e = os.path.realpath(os.path.join(d, f))`, and the
three attributes tested at source lines 99-100 (`os.path.exists(e)`,
`os.path.isdir(e)`, owner-execute bit of `os.stat(e)`). -/
structure FSEntry where
  name : String
  realpath : String
  pexists : Bool
  isDir : Bool
  ownerExec : Bool
deriving DecidableEq

/-- The filesystem as the locator sees it: `fs.listdir d` is the entry
list of directory `d`; `none` models `os.listdir` raising `OSError`
(missing, non-directory or unreadable path). -/
structure FS where
  listdir : String → Option (List FSEntry)

/-- ASCII lowercasing of one character; `str.lower()` restricted to the
ASCII strings this program handles. -/
def lowerChar (c : Char) : Char :=
  if 65 ≤ c.toNat ∧ c.toNat ≤ 90 then Char.ofNat (c.toNat + 32) else c

/-- `s.lower()` on ASCII strings. -/
def lowerStr (s : String) : String := String.mk (s.toList.map lowerChar)

/-- Python's `needle in hay` on strings: contiguous substring test. -/
def subList : List Char → List Char → Bool
  | needle, [] => needle.isEmpty
  | needle, c :: rest => needle.isPrefixOf (c :: rest) || subList needle rest

/-- `needle in hay` for Python strings. -/
def strContains (needle hay : String) : Bool := subList needle.toList hay.toList

/-- Python's `s.split(sep)` for a one-character separator. -/
def splitChar (c : Char) : List Char → List (List Char)
  | [] => [[]]
  | x :: xs =>
    let r := splitChar c xs
    if x = c then [] :: r
    else
      match r with
      | [] => [[x]]
      | h :: t => (x :: h) :: t

/-- `PATH.split(':')`. -/
def splitPath (s : String) : List String := (splitChar ':' s.toList).map String.mk

/-- The odd-position pieces of a list of fragments; used to read the
placeholder tokens (the text standing between '#' pairs) off a split. -/
def oddElems : List (List Char) → List String
  | [] => []
  | [_] => []
  | _ :: b :: rest => String.mk b :: oddElems rest

/-- The placeholder tokens of a command-line template: the names wrapped
in '#' delimiters. -/
def placeholders (s : String) : List String := oddElems (splitChar '#' s.toList)

/-- Dictionary lookup (association list in insertion order). -/
def getOpt : List (String × String) → String → Option String
  | [], _ => none
  | (k, v) :: rest, key => if k = key then some v else getOpt rest key

/-- `key in m` for the dictionary model. -/
def hasKey (m : List (String × String)) (k : String) : Bool := (getOpt m k).isSome

/-- `m[key] = v`: replace in place when the key exists, append otherwise. -/
def setKey : List (String × String) → String → String → List (String × String)
  | [], key, v => [(key, v)]
  | (k, w) :: rest, key, v =>
    if k = key then (k, v) :: rest else (k, w) :: setKey rest key v

/-- `m[key] += v` on a string value; `none` models the `KeyError` raised
when the key is absent. -/
def appendVal : List (String × String) → String → String → Option (List (String × String))
  | [], _, _ => none
  | (k, w) :: rest, key, v =>
    if k = key then some ((k, w ++ v) :: rest)
    else (appendVal rest key v).map (fun r => (k, w) :: r)

/-- Outcome of the `for d in PATH.split(':')` search loop. -/
inductive SearchOutcome
  | found : String → SearchOutcome
  | notFound : SearchOutcome
  | listError : SearchOutcome
deriving DecidableEq

/-- Source lines 99-100: an entry is considered only when its canonical
path exists, is not a directory, and has the owner-execute bit set. -/
def acceptEntry (ent : FSEntry) : Bool := ent.pexists && !ent.isDir && ent.ownerExec

/-- The inner loop `for f in os.listdir(d)` of `find_executable`: the
first accepted entry whose canonical path (line 101 tests `e.lower()`,
the realpath, not the entry name) contains the fragment
case-insensitively; the entry NAME `f` is what is returned. -/
def findInEntries (exe : String) : List FSEntry → Option String
  | [] => none
  | ent :: rest =>
    if acceptEntry ent && strContains (lowerStr exe) (lowerStr ent.realpath)
    then some ent.name
    else findInEntries exe rest

/-- The outer loop over the PATH directories; a directory whose listing
raises `OSError` propagates the exception immediately (no skipping). -/
def searchDirs (exe : String) : List String → FS → SearchOutcome
  | [], _ => .notFound
  | d :: rest, fs =>
    match fs.listdir d with
    | none => .listError
    | some entries =>
      match findInEntries exe entries with
      | some f => .found f
      | none => searchDirs exe rest fs

/-- Source line 107's message, verbatim: the format placeholder is never
filled (`.format` is not applied to this string), so the braces appear
literally in the printed message. -/
def locErrMsg : String :=
  "could not find \"\x7b\x7d\" executable in your PATH environment variable"

/-- How one call of `find_executable` terminates. -/
inductive LocResult
  | found : String → Bool → LocResult
  | errorExit : String → LocResult
  | oserror : LocResult
  | pyerror : LocResult
deriving DecidableEq

/-- `find_executable(exe, rollback=...)`, source lines 91-107, with the
process-level effects made explicit.
* A primary match returns `(f, True if not rollback else False)`: the
  boolean is `rollback.isNone`, i.e. false whenever a fallback fragment
  was supplied, whichever fragment matched.
* When the primary search fails and a fallback was supplied, the code
  calls `find_executable(rollback, rollback=True)` but DISCARDS its
  return value, so even a successful fallback search falls through to
  `error(..., exit=True)`; when the fallback search also fails, that
  inner call recurses as `find_executable(True, rollback=True)`, and
  `True.lower()` raises `AttributeError` (or the recursion never stops
  and raises `RecursionError`) — an unhandled exception (`pyerror`).
* A directory whose `os.listdir` raises propagates `OSError`
  (`oserror`) past the whole function, fallback included.
* With `PATH` unset the loop body never runs. -/
def find_executable (exe : String) (rollback : Option String)
    (path : Option String) (fs : FS) : LocResult :=
  match path with
  | none =>
    match rollback with
    | none => .errorExit locErrMsg
    | some _ => .pyerror
  | some p =>
    match searchDirs exe (splitPath p) fs with
    | .found f => .found f rollback.isNone
    | .listError => .oserror
    | .notFound =>
      match rollback with
      | none => .errorExit locErrMsg
      | some rb =>
        match searchDirs rb (splitPath p) fs with
        | .found _ => .errorExit locErrMsg
        | .listError => .oserror
        | .notFound => .pyerror

/-- A stage's construction either yields the finished option map or
raises an unhandled exception (`TypeError`, `KeyError`, `NameError`). -/
inductive StageResult
  | ok : List (String × String) → StageResult
  | exnCrash : StageResult
deriving DecidableEq

/-- `m[key] += v` lifted to a stage outcome: `KeyError` when absent. -/
def appendOr (m : List (String × String)) (k v : String) : StageResult :=
  match appendVal m k v with
  | some r => .ok r
  | none => .exnCrash

/-- Source lines 136-141: the `makeblastdb` nucleotide-DB map. -/
def db_dna_makeblastdb (exe : String) : List (String × String) :=
  [("program_name", exe),
   ("params", "-parse_seqids -dbtype nucl"),
   ("input", "-in"),
   ("output", "-out"),
   ("version", "-version"),
   ("command_line", "#program_name# #params# #input# #output#")]

/-- Source lines 149-154: the `usearch` amino-acid-DB map. -/
def db_aa_usearch (exe : String) : List (String × String) :=
  [("program_name", exe),
   ("params", "-quiet"),
   ("input", "-makeudb_ublast"),
   ("output", "-output"),
   ("version", "-version"),
   ("command_line", "#program_name# #params# #input# #output#")]

/-- Source lines 157-163: the `diamond` amino-acid-DB map. -/
def db_aa_diamond (exe : String) : List (String × String) :=
  [("program_name", exe),
   ("params", "makedb"),
   ("threads", "--threads"),
   ("input", "--in"),
   ("output", "--db"),
   ("version", "version"),
   ("command_line", "#program_name# #params# #threads# #input# #output#")]

/-- Source lines 171-178: the `blastn` nucleotide-mapping map. -/
def map_dna_blastn (exe : String) : List (String × String) :=
  [("program_name", exe),
   ("params", "-outfmt 6 -max_target_seqs 1000000"),
   ("input", "-query"),
   ("database", "-db"),
   ("output", "-out"),
   ("version", "-version"),
   ("command_line", "#program_name# #params# #input# #database# #output#")]

/-- Source lines 181-190: the `tblastn` nucleotide-mapping map. -/
def map_dna_tblastn (exe : String) : List (String × String) :=
  [("program_name", exe),
   ("params", "-outfmt \"6 saccver qaccver pident length mismatch gapopen sstart send qstart qend evalue bitscore\" -evalue 1e-50 -max_target_seqs 1000000"),
   ("input", "-subject"),
   ("database", "-query"),
   ("output", "-out"),
   ("version", "-version"),
   ("command_line", "#program_name# #params# #input# #database# #output#")]

/-- Source lines 193-201: the `diamond` nucleotide-mapping map. -/
def map_dna_diamond (exe : String) : List (String × String) :=
  [("program_name", exe),
   ("params", "blastx --quiet --threads 1 --outfmt 6 --more-sensitive --id 50 --max-hsps 35 -k 0"),
   ("input", "--query"),
   ("database", "--db"),
   ("output", "--out"),
   ("version", "version"),
   ("command_line", "#program_name# #params# #input# #database# #output#")]

/-- Source lines 209-217: the `usearch` amino-acid-mapping map. -/
def map_aa_usearch (exe : String) : List (String × String) :=
  [("program_name", exe),
   ("params", "-quiet -evalue 1e-10 -maxaccepts 8 -maxrejects 32"),
   ("threads", "-threads"),
   ("input", "-ublast"),
   ("database", "-db"),
   ("output", "-blast6out"),
   ("version", "-version"),
   ("command_line", "#program_name# #params# #threads# #input# #database# #output#")]

/-- Source lines 220-227: the `diamond` amino-acid-mapping map. -/
def map_aa_diamond (exe : String) : List (String × String) :=
  [("program_name", exe),
   ("params", "blastp --quiet --threads 1 --outfmt 6 --more-sensitive --id 50 --max-hsps 35 -k 0"),
   ("input", "--query"),
   ("database", "--db"),
   ("output", "--out"),
   ("version", "version"),
   ("command_line", "#program_name# #params# #input# #database# #output#")]

/-- Source lines 234-239: the `muscle` MSA map. -/
def msa_muscle (exe : String) : List (String × String) :=
  [("program_name", exe),
   ("params", "-quiet -maxiters 2"),
   ("input", "-in"),
   ("output", "-out"),
   ("version", "-version"),
   ("command_line", "#program_name# #params# #input# #output#")]

/-- Source lines 242-246: the `mafft` MSA map.  Its template names
`#input#` and `#output#` although neither is a key of the map. -/
def msa_mafft (exe : String) : List (String × String) :=
  [("program_name", exe),
   ("params", "--quiet --anysymbol --auto"),
   ("environment", "TMPDIR=/local-storage"),
   ("version", "--version"),
   ("command_line", "#program_name# #params# #input# > #output#")]

/-- Source lines 249-256: the `opal` MSA map; with amino-acid data the
params string gains `--protein`. -/
def msa_opal (exe : String) (dbType : String) : StageResult :=
  let base : List (String × String) :=
    [("program_name", exe),
     ("input", "--in"),
     ("output", "--out"),
     ("params", "--quiet"),
     ("command_line", "#program_name# #params# #input# #output#")]
  if dbType = "a" then appendOr base "params" " --protein" else .ok base

/-- Source lines 259-270: the `upp` MSA map.  The nucleotide branch
executes `msa['params'] += ' -m dna',` — a string `+=` with a
one-element TUPLE on the right (trailing comma), raising `TypeError`;
the amino-acid branch executes `msa['model'] += ' -m amino'` on a key
never initialised, raising `KeyError`. -/
def msa_upp (exe : String) (dbType : String) : StageResult :=
  let base : List (String × String) :=
    [("program_name", exe),
     ("params", "-x 1 -M -1 -T 0.66 -B 999999999"),
     ("input", "-s"),
     ("output", "-o"),
     ("output_path", "-d"),
     ("version", "--version"),
     ("command_line", "#program_name# #params# #input# #output_path# #output#")]
  if dbType = "n" then .exnCrash
  else if dbType = "a" then appendOr base "model" " -m amino"
  else .ok base

/-- Source lines 278-283: the `trimal` trimming map. -/
def trim_trimal (exe : String) : List (String × String) :=
  [("program_name", exe),
   ("params", "-gappyout"),
   ("input", "-in"),
   ("output", "-out"),
   ("version", "--version"),
   ("command_line", "#program_name# #params# #input# #output#")]

/-- Source lines 291-300: the `fasttree` gene-tree-pass-1 map.  Its
template names `#input#`, which is not a key of the map. -/
def gene_tree1_fasttree (exe : String) (dbType : String) : StageResult :=
  let base : List (String × String) :=
    [("program_name", exe),
     ("params", "-quiet -mlacc 2 -slownni -spr 4 -fastest -mlnni 4 -no2nd"),
     ("output", "-out"),
     ("command_line", "#program_name# #params# #output# #input#")]
  if dbType = "n" then appendOr base "params" " -gtr -nt"
  else if dbType = "a" then appendOr base "params" " -lg"
  else .ok base

/-- Source lines 303-317: the `raxml` gene-tree-pass-1 map.  The
nucleotide branch executes `gene_tree1['params'] += ' -m GTRCAT',`
(trailing comma, string `+=` tuple) raising `TypeError` before the
`command_line` key is ever set; the amino-acid branch completes. -/
def gene_tree1_raxml (exe : String) (dbType : String) : StageResult :=
  let base : List (String × String) :=
    [("program_name", exe),
     ("params", "-p 1989"),
     ("input", "-s"),
     ("output_path", "-w"),
     ("output", "-n"),
     ("version", "-v")]
  if dbType = "n" then .exnCrash
  else if dbType = "a" then
    .ok (setKey (setKey base "model" "-m") "command_line"
      "#program_name# #model# #params# #output_path# #input# #output#")
  else .ok base

/-- Source lines 325-340: the `raxml` gene-tree-pass-2 map (note the
nucleotide branch appends `'-p 1989 -m GTRCAT'` with no separating
space, verbatim from the source). -/
def gene_tree2_raxml (exe : String) (dbType : String) : StageResult :=
  let base : List (String × String) :=
    [("program_name", exe),
     ("params", "-p 1989"),
     ("database", "-t"),
     ("input", "-s"),
     ("output_path", "-w"),
     ("output", "-n"),
     ("version", "-v")]
  if dbType = "n" then
    match appendVal base "params" "-p 1989 -m GTRCAT" with
    | some m => .ok (setKey m "command_line"
        "#program_name# #params# #database# #output_path# #input# #output#")
    | none => .exnCrash
  else if dbType = "a" then
    .ok (setKey (setKey base "model" "-m") "command_line"
      "#program_name# #model# #params# #database# #output_path# #input# #output#")
  else .ok base

/-- Source lines 346-351: the `astral` species-tree-pass-1 map.  No
executable discovery: `program_name` is a fixed literal invocation, and
the map carries a `version` entry pointing at bundled test data. -/
def tree1_astral : List (String × String) :=
  [("program_name", "java -jar /CM/tools/astral-4.11.1/astral.4.11.1.jar"),
   ("input", "-i"),
   ("output", "-o"),
   ("version", "-i /CM/tools/astral-4.11.1/test_data/song_mammals.424.gene.tre"),
   ("command_line", "#program_name# #input# #output#")]

/-- Source lines 354-359: the `astrid` species-tree-pass-1 map. -/
def tree1_astrid (exe : String) : List (String × String) :=
  [("program_name", exe),
   ("input", "-i"),
   ("params", "-m auto"),
   ("output", "-o"),
   ("version", "--help"),
   ("command_line", "#program_name# #input# #params# #output#")]

/-- Source lines 362-372: the `fasttree` species-tree-pass-1 map; the
`environment` entry is added when the locator's boolean `rb` is false.
Its template names `#input#`, which is not a key of the map. -/
def tree1_fasttree (exe : String) (rb : Bool) (dbType : String) : StageResult :=
  let base : List (String × String) :=
    [("program_name", exe),
     ("params", "-quiet -mlacc 2 -slownni -spr 4 -fastest -mlnni 4 -no2nd"),
     ("output", "-out"),
     ("command_line", "#program_name# #params# #output# #input#")]
  let m1 := if !rb then setKey base "environment" "OMP_NUM_THREADS=3" else base
  if dbType = "n" then appendOr m1 "params" " -gtr -nt"
  else if dbType = "a" then appendOr m1 "params" " -lg"
  else .ok m1

/-- Source lines 375-389: the `raxml` species-tree-pass-1 map; the
`threads` entry (`-T`) is added when the locator's boolean `rb` is
false.  Its template names `#database#`, which is never a key. -/
def tree1_raxml (exe : String) (rb : Bool) (dbType : String) : StageResult :=
  let base : List (String × String) :=
    [("program_name", exe),
     ("params", "-p 1989"),
     ("input", "-s"),
     ("output_path", "-w"),
     ("output", "-n"),
     ("version", "-v"),
     ("command_line", "#program_name# #params# #threads# #database# #output_path# #input# #output#")]
  let m1 := if !rb then setKey base "threads" "-T" else base
  if dbType = "n" then appendOr m1 "params" " -m GTRCAT"
  else if dbType = "a" then appendOr m1 "params" " -m PROTCATLG"
  else .ok m1

/-- Source lines 397-412: the `raxml` species-tree-pass-2 map. -/
def tree2_raxml (exe : String) (rb : Bool) (dbType : String) : StageResult :=
  let base : List (String × String) :=
    [("program_name", exe),
     ("params", "-p 1989"),
     ("database", "-t"),
     ("input", "-s"),
     ("output_path", "-w"),
     ("output", "-n"),
     ("version", "-v"),
     ("command_line", "#program_name# #params# #threads# #database# #output_path# #input# #output#")]
  let m1 := if !rb then setKey base "threads" "-T" else base
  if dbType = "n" then appendOr m1 "params" " -m GTRCAT"
  else if dbType = "a" then appendOr m1 "params" " -m PROTCATLG"
  else .ok m1

/-- The parsed command-line arguments (after `argparse`); optional
selectors are `none` when not given. -/
structure Args where
  db_type : String
  db_dna : Option String
  db_aa : Option String
  map_dna : Option String
  map_aa : Option String
  msa : String
  trim : Option String
  gene_tree1 : Option String
  gene_tree2 : Option String
  tree1 : String
  tree2 : Option String
  overwrite : Bool
  verbose : Bool
deriving DecidableEq

/-- Accumulator of the stage loop: the `progs` dictionary (stage name to
option map, insertion order) and the trace of `find_executable` calls
made so far, each recorded as (stage, requested primary fragment). -/
structure RunAcc where
  progs : List (String × List (String × String))
  trace : List (String × String)
deriving DecidableEq

/-- State after running some stages: still going, terminated by
`error(..., exit=True)`, or terminated by an unhandled exception. -/
inductive StageOut
  | ok : RunAcc → StageOut
  | exited : List (String × String) → StageOut
  | crashed : List (String × String) → StageOut
deriving DecidableEq

/-- Sequencing of stages: a failure short-circuits. -/
def bindStage (s : StageOut) (f : RunAcc → StageOut) : StageOut :=
  match s with
  | .ok a => f a
  | x => x

/-- Effect of one `find_executable` call inside `__main__`. -/
inductive LocStep
  | got : String → Bool → LocStep
  | exited : LocStep
  | crashed : LocStep
deriving DecidableEq

/-- Run one locator call as `__main__` observes it. -/
def locStep (path : Option String) (fs : FS) (exe : String)
    (rollback : Option String) : LocStep :=
  match find_executable exe rollback path fs with
  | .found f b => .got f b
  | .errorExit _ => .exited
  | .oserror => .crashed
  | .pyerror => .crashed

/-- Run a stage whose body is one locator call followed by a map
builder that cannot itself raise. -/
def simpleStage (path : Option String) (fs : FS) (stage exe : String)
    (rollback : Option String) (build : String → Bool → List (String × String))
    (acc : RunAcc) : StageOut :=
  let tr := acc.trace ++ [(stage, exe)]
  match locStep path fs exe rollback with
  | .got f b => .ok ⟨acc.progs ++ [(stage, build f b)], tr⟩
  | .exited => .exited tr
  | .crashed => .crashed tr

/-- Run a stage whose builder may raise (`StageResult`). -/
def fallibleStage (path : Option String) (fs : FS) (stage exe : String)
    (rollback : Option String) (build : String → Bool → StageResult)
    (acc : RunAcc) : StageOut :=
  let tr := acc.trace ++ [(stage, exe)]
  match locStep path fs exe rollback with
  | .got f b =>
    match build f b with
    | .ok m => .ok ⟨acc.progs ++ [(stage, m)], tr⟩
    | .exnCrash => .crashed tr
  | .exited => .exited tr
  | .crashed => .crashed tr

/-- Source lines 133-143: the nucleotide-DB stage.  When the selector
matches no branch the later `progs['db_dna'] = db_dna` would raise
`NameError` (the local was never bound). -/
def stageDbDna (path : Option String) (fs : FS) (args : Args) (acc : RunAcc) : StageOut :=
  match args.db_dna with
  | none => .ok acc
  | some s =>
    if strContains "makeblastdb" s then
      simpleStage path fs "db_dna" "makeblastdb" none (fun f _ => db_dna_makeblastdb f) acc
    else .crashed acc.trace

/-- Source lines 146-165: the amino-acid-DB stage. -/
def stageDbAa (path : Option String) (fs : FS) (args : Args) (acc : RunAcc) : StageOut :=
  match args.db_aa with
  | none => .ok acc
  | some s =>
    if strContains "usearch" s then
      simpleStage path fs "db_aa" "usearch" none (fun f _ => db_aa_usearch f) acc
    else if strContains "diamond" s then
      simpleStage path fs "db_aa" "diamond" none (fun f _ => db_aa_diamond f) acc
    else .crashed acc.trace

/-- Source lines 168-203: the nucleotide-mapping stage. -/
def stageMapDna (path : Option String) (fs : FS) (args : Args) (acc : RunAcc) : StageOut :=
  match args.map_dna with
  | none => .ok acc
  | some s =>
    if strContains "blastn" s then
      simpleStage path fs "map_dna" "blastn" none (fun f _ => map_dna_blastn f) acc
    else if strContains "tblastn" s then
      simpleStage path fs "map_dna" "tblastn" none (fun f _ => map_dna_tblastn f) acc
    else if strContains "diamond" s then
      simpleStage path fs "map_dna" "diamond" none (fun f _ => map_dna_diamond f) acc
    else .crashed acc.trace

/-- Source lines 206-229: the amino-acid-mapping stage. -/
def stageMapAa (path : Option String) (fs : FS) (args : Args) (acc : RunAcc) : StageOut :=
  match args.map_aa with
  | none => .ok acc
  | some s =>
    if strContains "usearch" s then
      simpleStage path fs "map_aa" "usearch" none (fun f _ => map_aa_usearch f) acc
    else if strContains "diamond" s then
      simpleStage path fs "map_aa" "diamond" none (fun f _ => map_aa_diamond f) acc
    else .crashed acc.trace

/-- Source lines 232-272: the MSA stage (always present). -/
def stageMsa (path : Option String) (fs : FS) (args : Args) (acc : RunAcc) : StageOut :=
  if strContains "muscle" args.msa then
    simpleStage path fs "msa" "muscle" none (fun f _ => msa_muscle f) acc
  else if strContains "mafft" args.msa then
    simpleStage path fs "msa" "mafft" none (fun f _ => msa_mafft f) acc
  else if strContains "opal" args.msa then
    fallibleStage path fs "msa" "opal" none (fun f _ => msa_opal f args.db_type) acc
  else if strContains "upp" args.msa then
    fallibleStage path fs "msa" "run-upp.sh" (some "upp") (fun f _ => msa_upp f args.db_type) acc
  else .crashed acc.trace

/-- Source lines 275-285: the trimming stage. -/
def stageTrim (path : Option String) (fs : FS) (args : Args) (acc : RunAcc) : StageOut :=
  match args.trim with
  | none => .ok acc
  | some s =>
    if strContains "trimal" s then
      simpleStage path fs "trim" "trimal" none (fun f _ => trim_trimal f) acc
    else .crashed acc.trace

/-- Source lines 288-319: the gene-tree-pass-1 stage. -/
def stageGeneTree1 (path : Option String) (fs : FS) (args : Args) (acc : RunAcc) : StageOut :=
  match args.gene_tree1 with
  | none => .ok acc
  | some s =>
    if strContains "fasttree" s then
      fallibleStage path fs "gene_tree1" "FastTree-2.1.9-SSE3" (some "fasttree")
        (fun f _ => gene_tree1_fasttree f args.db_type) acc
    else if strContains "raxml" s then
      fallibleStage path fs "gene_tree1" "raxmlHPC" (some "raxml")
        (fun f _ => gene_tree1_raxml f args.db_type) acc
    else .crashed acc.trace

/-- Source lines 322-342: the gene-tree-pass-2 stage. -/
def stageGeneTree2 (path : Option String) (fs : FS) (args : Args) (acc : RunAcc) : StageOut :=
  match args.gene_tree2 with
  | none => .ok acc
  | some s =>
    if strContains "raxml" s then
      fallibleStage path fs "gene_tree2" "raxmlHPC" (some "raxml")
        (fun f _ => gene_tree2_raxml f args.db_type) acc
    else .crashed acc.trace

/-- Source lines 345-391: the species-tree-pass-1 stage.  The `astral`
branch performs no executable discovery (its dictionary is built from
literals only); the source's separate `if 'astral'` statement followed
by the `if 'astrid'/elif/elif` chain is behaviour-equivalent to the
chain below because a later branch fully rebinds `tree1`. -/
def stageTree1 (path : Option String) (fs : FS) (args : Args) (acc : RunAcc) : StageOut :=
  if strContains "astrid" args.tree1 then
    simpleStage path fs "tree1" "ASTRID" none (fun f _ => tree1_astrid f) acc
  else if strContains "fasttree" args.tree1 then
    fallibleStage path fs "tree1" "FastTreeMP-2.1.9-SSE3" (some "fasttree")
      (fun f b => tree1_fasttree f b args.db_type) acc
  else if strContains "raxml" args.tree1 then
    fallibleStage path fs "tree1" "raxmlHPC-PTHREADS-SSE3" (some "raxml")
      (fun f b => tree1_raxml f b args.db_type) acc
  else if strContains "astral" args.tree1 then
    .ok ⟨acc.progs ++ [("tree1", tree1_astral)], acc.trace⟩
  else .crashed acc.trace

/-- Source lines 394-414: the species-tree-pass-2 stage. -/
def stageTree2 (path : Option String) (fs : FS) (args : Args) (acc : RunAcc) : StageOut :=
  match args.tree2 with
  | none => .ok acc
  | some s =>
    if strContains "raxml" s then
      fallibleStage path fs "tree2" "raxmlHPC-PTHREADS-SSE3" (some "raxml")
        (fun f b => tree2_raxml f b args.db_type) acc
    else .crashed acc.trace

/-- All ten stage blocks of `__main__`, in source order. -/
def runPipeline (args : Args) (path : Option String) (fs : FS) : StageOut :=
  bindStage (stageDbDna path fs args ⟨[], []⟩) (fun a =>
  bindStage (stageDbAa path fs args a) (fun a =>
  bindStage (stageMapDna path fs args a) (fun a =>
  bindStage (stageMapAa path fs args a) (fun a =>
  bindStage (stageMsa path fs args a) (fun a =>
  bindStage (stageTrim path fs args a) (fun a =>
  bindStage (stageGeneTree1 path fs args a) (fun a =>
  bindStage (stageGeneTree2 path fs args a) (fun a =>
  bindStage (stageTree1 path fs args a) (fun a =>
  stageTree2 path fs args a)))))))))

/-- `configparser` serialization of one stage section. -/
def renderSection (sec : String × List (String × String)) : String :=
  "[" ++ sec.1 ++ "]\n" ++
    String.join (sec.2.map (fun kv => kv.1 ++ " = " ++ kv.2 ++ "\n")) ++ "\n"

/-- `config.write(f)`: the full text written to the output file. -/
def render (progs : List (String × List (String × String))) : String :=
  String.join (progs.map renderSection)

/-- Source lines 424-428, the emission step, as a function of the
destination state observed at emission time: first component is whether
the informational overwrite message is printed, second is the content
written (`some` means the file IS written — `open(..., 'w')` truncates
and rewrites unconditionally; there is no refusal branch). -/
def emitStep (destExists overwrite verbose : Bool)
    (progs : List (String × List (String × String))) : Bool × Option String :=
  (destExists && overwrite && verbose, some (render progs))

/-- Source lines 82-88, `check_params`: `true` means both checks pass.
First check: at least one of `--map_dna`/`--map_aa`; second: the output
file must not already exist unless `--overwrite` was given. -/
def check_params (args : Args) (destExists : Bool) : Bool :=
  (args.map_dna.isSome || args.map_aa.isSome) && (!destExists || args.overwrite)

/-- Final state of one program run. -/
inductive Outcome
  | exitedErr : Outcome
  | crashed : Outcome
  | finished : List (String × List (String × String)) → Outcome
deriving DecidableEq

/-- Result of one run: how the process terminated, which locator calls
were made, and the output file's final content (`prior` is its content
before the run, `none` when the file did not exist). -/
structure MainResult where
  outcome : Outcome
  trace : List (String × String)
  file : Option String
deriving DecidableEq

/-- The whole `__main__` flow: `check_params` (which exits before any
stage processing), the ten stage blocks, then emission. -/
def mainRun (args : Args) (path : Option String) (fs : FS)
    (prior : Option String) : MainResult :=
  if !(args.map_dna.isSome || args.map_aa.isSome) then ⟨.exitedErr, [], prior⟩
  else if prior.isSome && !args.overwrite then ⟨.exitedErr, [], prior⟩
  else
    match runPipeline args path fs with
    | .ok acc => ⟨.finished acc.progs, acc.trace,
        (emitStep prior.isSome args.overwrite args.verbose acc.progs).2⟩
    | .exited tr => ⟨.exitedErr, tr, prior⟩
    | .crashed tr => ⟨.crashed, tr, prior⟩

/-- All stage option-map constructions the builder can run, for a given
discovered executable name `exe`, locator boolean `rb` and data type;
crashing constructions appear as `exnCrash` and so produce no map. -/
def allStages (exe : String) (rb : Bool) (dbType : String) : List StageResult :=
  [.ok (db_dna_makeblastdb exe), .ok (db_aa_usearch exe), .ok (db_aa_diamond exe),
   .ok (map_dna_blastn exe), .ok (map_dna_tblastn exe), .ok (map_dna_diamond exe),
   .ok (map_aa_usearch exe), .ok (map_aa_diamond exe),
   .ok (msa_muscle exe), .ok (msa_mafft exe), msa_opal exe dbType, msa_upp exe dbType,
   .ok (trim_trimal exe),
   gene_tree1_fasttree exe dbType, gene_tree1_raxml exe dbType,
   gene_tree2_raxml exe dbType,
   .ok tree1_astral, .ok (tree1_astrid exe),
   tree1_fasttree exe rb dbType, tree1_raxml exe rb dbType,
   tree2_raxml exe rb dbType]

/-- The stage option maps actually produced (constructions that raise
are excluded — they never yield a map). -/
def okMaps (exe : String) (rb : Bool) (dbType : String) : List (List (String × String)) :=
  (allStages exe rb dbType).filterMap (fun r =>
    match r with
    | .ok m => some m
    | .exnCrash => none)

/-- The placeholder-closure property, weakened as the code forces: the
map holds `program_name` and `command_line`, and every placeholder of
its template is either a key of the map or one of the optional tokens
`input`, `output`, `database`, `threads` (which the external executor
omits when the key is absent). -/
def mapOK (m : List (String × String)) : Bool :=
  hasKey m "program_name" && hasKey m "command_line" &&
    (placeholders ((getOpt m "command_line").getD "")).all
      (fun p => hasKey m p || p == "input" || p == "output" ||
        p == "database" || p == "threads")

/-- Whether the species-tree-pass-1 raxml map carries the `threads`
option (`false` also when the construction crashes, which it never
does for this stage). -/
def tree1RaxmlThreads (exe : String) (rb : Bool) (dbType : String) : Bool :=
  match tree1_raxml exe rb dbType with
  | .ok m => hasKey m "threads"
  | .exnCrash => false

/-- The locator's acceptance-and-match test of lines 99-101. -/
def entryMatches (exe : String) (ent : FSEntry) : Bool :=
  acceptEntry ent && strContains (lowerStr exe) (lowerStr ent.realpath)

/-- The concatenation of all directory listings of the search path, in
path order (meaningful when every listing succeeds). -/
def flatEntries (dirs : List String) (fs : FS) : List FSEntry :=
  (dirs.map (fun d => (fs.listdir d).getD [])).flatten

/-- PATH directory holding exactly one executable entry named `raxml`. -/
def fsOnlyRaxml : FS :=
  ⟨fun d => if d = "/usr/bin" then
      some [⟨"raxml", "/usr/bin/raxml", true, false, true⟩]
    else none⟩

/-- PATH directory holding exactly the preferred raxml pthreads build. -/
def fsPthreads : FS :=
  ⟨fun d => if d = "/usr/bin" then
      some [⟨"raxmlHPC-PTHREADS-SSE3", "/usr/bin/raxmlHPC-PTHREADS-SSE3", true, false, true⟩]
    else none⟩

/-- A PATH directory that exists but holds no entries at all. -/
def fsEmptyDir : FS :=
  ⟨fun d => if d = "/usr/bin" then some [] else none⟩

/-- An entry whose NAME (`foo`) does not contain the fragment but whose
symlink-resolved canonical path does. -/
def fsSymlink : FS :=
  ⟨fun d => if d = "/usr/bin" then
      some [⟨"foo", "/opt/raxml/bin/tool", true, false, true⟩]
    else none⟩

/-- One listable directory with a match, followed by a stale PATH
component whose listing raises. -/
def fsStale : FS :=
  ⟨fun d => if d = "/usr/bin" then
      some [⟨"makeblastdb", "/usr/bin/makeblastdb", true, false, true⟩]
    else none⟩

/-- A PATH directory holding the executables the concrete end-to-end
runs below look up. -/
def fsFull : FS :=
  ⟨fun d => if d = "/usr/bin" then
      some [⟨"makeblastdb", "/usr/bin/makeblastdb", true, false, true⟩,
            ⟨"blastn", "/usr/bin/blastn", true, false, true⟩,
            ⟨"usearch", "/usr/bin/usearch", true, false, true⟩,
            ⟨"muscle", "/usr/bin/muscle", true, false, true⟩,
            ⟨"run-upp.sh", "/usr/bin/run-upp.sh", true, false, true⟩,
            ⟨"raxmlHPC", "/usr/bin/raxmlHPC", true, false, true⟩]
    else none⟩

/-- Nucleotide run selecting the `upp` MSA tool. -/
def argsUppN : Args :=
  ⟨"n", some "makeblastdb", none, some "blastn", none, "upp",
   none, none, none, "fasttree", none, false, false⟩

/-- Amino-acid run selecting the `upp` MSA tool. -/
def argsUppA : Args :=
  ⟨"a", none, some "usearch", none, some "usearch", "upp",
   none, none, none, "fasttree", none, false, false⟩

/-- Nucleotide run selecting the `raxml` gene-tree-pass-1 tool. -/
def argsGt1RaxmlN : Args :=
  ⟨"n", some "makeblastdb", none, some "blastn", none, "muscle",
   none, some "raxml", none, "fasttree", none, false, false⟩

/-- Minimal nucleotide run (overwrite requested) used to exercise the
overwrite/emission behaviour. -/
def argsOverwrite : Args :=
  ⟨"n", some "makeblastdb", none, some "blastn", none, "muscle",
   none, none, none, "fasttree", none, true, false⟩

/-- Same run with overwrite NOT requested. -/
def argsPlain : Args :=
  ⟨"n", some "makeblastdb", none, some "blastn", none, "muscle",
   none, none, none, "astral", none, false, false⟩

lemma find_executable_some (exe : String) (rb : Option String) (p : String) (fs : FS) :
    find_executable exe rb (some p) fs =
      (match searchDirs exe (splitPath p) fs with
       | .found f => .found f rb.isNone
       | .listError => .oserror
       | .notFound =>
         match rb with
         | none => .errorExit locErrMsg
         | some r =>
           match searchDirs r (splitPath p) fs with
           | .found _ => .errorExit locErrMsg
           | .listError => .oserror
           | .notFound => .pyerror) := rfl

lemma searchDirs_cons (exe d : String) (rest : List String) (fs : FS) :
    searchDirs exe (d :: rest) fs =
      (match fs.listdir d with
       | none => .listError
       | some entries =>
         match findInEntries exe entries with
         | some f => .found f
         | none => searchDirs exe rest fs) := rfl

lemma findInEntries_eq_find? (exe : String) (l : List FSEntry) :
    findInEntries exe l = (l.find? (entryMatches exe)).map FSEntry.name := by
  induction l with
  | nil => rfl
  | cons ent rest ih =>
    by_cases h : entryMatches exe ent = true
    · rw [findInEntries, List.find?_cons_of_pos _ h]
      simp only [entryMatches] at h
      rw [if_pos h]
      rfl
    · rw [findInEntries, List.find?_cons_of_neg _ (by simpa using h)]
      simp only [entryMatches] at h
      rw [if_neg h, ih]

lemma tree1RaxmlThreads_of_not_rb (f dbType : String) :
    tree1RaxmlThreads f false dbType = true := by
  by_cases h1 : dbType = "n"
  · subst h1; rfl
  · by_cases h2 : dbType = "a"
    · subst h2; rfl
    · simp only [tree1RaxmlThreads, tree1_raxml, if_neg h1, if_neg h2]
      rfl

/-- C1: the spec's fallback property is right and the code is wrong: at
a search path whose single entry `raxml` matches the fallback fragment
but not the primary one, the recursive fallback search does find the
match (second conjunct), yet `find_executable` discards that recursive
call's return value (line 105 has no `return`) and falls through to
`error(..., exit=True)`, terminating the process instead of returning
the fallback's filename with primaryFound = false. -/
theorem c1_code_eval :
    find_executable "raxmlHPC-PTHREADS-SSE3" (some "raxml") (some "/usr/bin") fsOnlyRaxml =
      .errorExit locErrMsg ∧
    searchDirs "raxml" (splitPath "/usr/bin") fsOnlyRaxml = .found "raxml" := by
  decide

/-- C2 counterexample: the mafft MSA map's `command_line` carries the
placeholder token `input`, which is not a key of that map and is not a
redirection marker, so the claimed placeholder-closure invariant fails
on the very map the claim cites. -/
theorem c2_counterexample :
    "input" ∈ placeholders ((getOpt (msa_mafft "mafft") "command_line").getD "") ∧
    hasKey (msa_mafft "mafft") "input" = false ∧
    "input" ≠ "<" ∧ "input" ≠ ">" := by
  decide

/-- C2 amended: every stage/tool/dataType combination that completes its
map construction yields a map containing `program_name` and
`command_line`, and every placeholder token of its `command_line` is
either a key of that same map or one of the optional tokens `input`,
`output`, `database`, `threads`, which the consuming executor omits
when the key is absent. -/
theorem c2_amended (exe : String) (rb : Bool) (dbType : String)
    (h : dbType = "n" ∨ dbType = "a") :
    (okMaps exe rb dbType).all mapOK = true := by
  rcases h with h | h <;> subst h <;> cases rb <;> rfl

theorem c2_amended_witness :
    (("n" : String) = "n" ∨ ("n" : String) = "a") ∧
      (okMaps "x" false "n").all mapOK = true :=
  ⟨Or.inl rfl, c2_amended "x" false "n" (Or.inl rfl)⟩

/-- C3 counterexample: with the preferred `raxmlHPC-PTHREADS-SSE3`
binary present, the locator's resolution reports `false` as its boolean
(line 102 computes `True if not rollback else False`, and the rollback
ARGUMENT is supplied), yet the `-T` threads option IS added — so
"threads added iff the resolution reports primaryFound = true" is false
at this input. -/
theorem c3_counterexample :
    find_executable "raxmlHPC-PTHREADS-SSE3" (some "raxml") (some "/usr/bin") fsPthreads =
      .found "raxmlHPC-PTHREADS-SSE3" false ∧
    ¬(tree1RaxmlThreads "raxmlHPC-PTHREADS-SSE3" false "n" = true ↔ false = true) := by
  decide

/-- C3 amended: whenever the species-tree-pass-1 raxml locator call
returns at all, its boolean is `false` (because a fallback fragment was
supplied), the `threads` option (`-T`) is then always added, and the
returned name does come from the primary `raxmlHPC-PTHREADS-SSE3`
search — so in every run that builds this stage the preferred
executable was the one located and the thread flag is present, but the
resolution's boolean reports `false`, not `true`. -/
theorem c3_amended (p : String) (fs : FS) (f : String) (b : Bool) (dbType : String)
    (h : find_executable "raxmlHPC-PTHREADS-SSE3" (some "raxml") (some p) fs = .found f b) :
    b = false ∧ tree1RaxmlThreads f b dbType = true ∧
      searchDirs "raxmlHPC-PTHREADS-SSE3" (splitPath p) fs = .found f := by
  rw [find_executable_some] at h
  cases hs : searchDirs "raxmlHPC-PTHREADS-SSE3" (splitPath p) fs with
  | found g =>
    rw [hs] at h
    have h2 : LocResult.found g false = LocResult.found f b := h
    injection h2 with hf hb
    subst hf
    subst hb
    exact ⟨rfl, tree1RaxmlThreads_of_not_rb g dbType, rfl⟩
  | notFound =>
    rw [hs] at h
    have h2 : (match searchDirs "raxml" (splitPath p) fs with
       | SearchOutcome.found _ => LocResult.errorExit locErrMsg
       | SearchOutcome.listError => LocResult.oserror
       | SearchOutcome.notFound => LocResult.pyerror) = LocResult.found f b := h
    cases hs2 : searchDirs "raxml" (splitPath p) fs <;> rw [hs2] at h2 <;> simp at h2
  | listError =>
    rw [hs] at h
    exact absurd (show LocResult.oserror = LocResult.found f b from h) (by simp)

theorem c3_amended_witness :
    find_executable "raxmlHPC-PTHREADS-SSE3" (some "raxml") (some "/usr/bin") fsPthreads =
      .found "raxmlHPC-PTHREADS-SSE3" false ∧
    (false = false ∧ tree1RaxmlThreads "raxmlHPC-PTHREADS-SSE3" false "n" = true ∧
      searchDirs "raxmlHPC-PTHREADS-SSE3" (splitPath "/usr/bin") fsPthreads =
        .found "raxmlHPC-PTHREADS-SSE3") :=
  ⟨by decide,
   c3_amended "/usr/bin" fsPthreads "raxmlHPC-PTHREADS-SSE3" false "n" (by decide)⟩

/-- C4: the claim is right and the code is wrong.  When nothing matches
and no fallback remains the process does exit via `error(..., exit=True)`
with status 1 and no file is written, but the message shown is the
LITERAL `could not find "{}" executable in your PATH environment
variable` — `.format` is never applied at line 107, so the requested
fragment is not named (second conjunct); and when a fallback WAS
supplied and both searches fail, the code instead recurses as
`find_executable(True, rollback=True)` and dies of an unhandled
`AttributeError`/`RecursionError` (third conjunct), again without the
promised message. -/
theorem c4_code_eval :
    find_executable "makeblastdb" none (some "/usr/bin") fsEmptyDir =
      .errorExit locErrMsg ∧
    strContains "makeblastdb" locErrMsg = false ∧
    find_executable "run-upp.sh" (some "upp") (some "/usr/bin") fsEmptyDir = .pyerror ∧
    (mainRun argsPlain (some "/usr/bin") fsEmptyDir none).outcome = .exitedErr ∧
    (mainRun argsPlain (some "/usr/bin") fsEmptyDir none).file = none := by
  decide

/-- C5 counterexample: the locator selects an entry whose FILENAME
(`foo`) does not contain the fragment at all — the substring test at
line 101 runs against the symlink-resolved canonical path
(`/opt/raxml/bin/tool`), not against the entry's filename as the claim
states. -/
theorem c5_counterexample :
    findInEntries "raxml" [⟨"foo", "/opt/raxml/bin/tool", true, false, true⟩] =
      some "foo" ∧
    strContains (lowerStr "raxml") (lowerStr "foo") = false ∧
    strContains (lowerStr "raxml") (lowerStr "/opt/raxml/bin/tool") = true := by
  decide

/-- C5 amended: provided every search-path directory is listable, the
search selects the first entry — in PATH-directory order, then listing
order — that is accepted (canonical path exists, is not a directory,
owner-execute bit set) and whose CANONICAL PATH contains the fragment
as a case-insensitive substring, and returns that entry's filename; the
match is against the canonical path, not against the filename. -/
theorem c5_amended (exe : String) (dirs : List String) (fs : FS)
    (h : dirs.all (fun d => (fs.listdir d).isSome) = true) :
    searchDirs exe dirs fs =
      (((flatEntries dirs fs).find? (entryMatches exe)).map
        (fun ent => SearchOutcome.found ent.name)).getD .notFound := by
  induction dirs with
  | nil => rfl
  | cons d rest ih =>
    rw [List.all_cons, Bool.and_eq_true] at h
    obtain ⟨l, hl⟩ := Option.isSome_iff_exists.mp h.1
    have hflat : flatEntries (d :: rest) fs = l ++ flatEntries rest fs := by
      simp [flatEntries, hl]
    simp only [hflat, List.find?_append, searchDirs_cons, hl, findInEntries_eq_find?]
    cases hfind : l.find? (entryMatches exe) with
    | some ent => simp [hfind]
    | none => simp only [hfind, Option.map_none', Option.none_or]; exact ih h.2

theorem c5_amended_witness :
    (["/usr/bin"].all (fun d => (fsOnlyRaxml.listdir d).isSome)) = true ∧
    searchDirs "raxml" ["/usr/bin"] fsOnlyRaxml =
      (((flatEntries ["/usr/bin"] fsOnlyRaxml).find? (entryMatches "raxml")).map
        (fun ent => SearchOutcome.found ent.name)).getD .notFound :=
  ⟨by decide, c5_amended "raxml" ["/usr/bin"] fsOnlyRaxml (by decide)⟩

/-- C6 counterexample: an invocation with overwrite requested whose
first locator call fails leaves the prior file content (`OLD`) fully in
place — the claim's "for every invocation with overwrite requested, the
prior file's content is fully replaced" is false at this input. -/
theorem c6_counterexample :
    argsOverwrite.overwrite = true ∧
    mainRun argsOverwrite (some "/usr/bin") fsEmptyDir (some "OLD") =
      ⟨.exitedErr, [("db_dna", "makeblastdb")], some "OLD"⟩ := by
  decide

/-- C6 amended: (1) when the output file exists and overwrite was not
requested, the run exits with an error before any stage processing or
executable discovery (empty locator trace) and the file is unchanged;
(2) a run that completes writes exactly the rendered configuration,
independent of the prior content (truncate-then-write, no merge); (3) a
run that exits or crashes leaves the file unchanged — so full
replacement holds for the invocations that reach emission, not for
every overwrite-requesting invocation. -/
theorem c6_amended :
    (∀ (args : Args) (path : Option String) (fs : FS) (prior : Option String),
        prior.isSome = true → args.overwrite = false →
        mainRun args path fs prior = ⟨.exitedErr, [], prior⟩) ∧
    (∀ (args : Args) (path : Option String) (fs : FS) (prior : Option String)
        (progs : List (String × List (String × String))),
        (mainRun args path fs prior).outcome = .finished progs →
        (mainRun args path fs prior).file = some (render progs)) ∧
    (∀ (args : Args) (path : Option String) (fs : FS) (prior : Option String),
        ((mainRun args path fs prior).outcome = .exitedErr ∨
          (mainRun args path fs prior).outcome = .crashed) →
        (mainRun args path fs prior).file = prior) := by
  refine ⟨?_, ?_, ?_⟩
  · intro args path fs prior hp how
    by_cases hc : (!(args.map_dna.isSome || args.map_aa.isSome)) = true
    · simp only [mainRun]
      rw [if_pos hc]
    · simp only [mainRun]
      rw [if_neg hc, if_pos (show (prior.isSome && !args.overwrite) = true by
        rw [hp, how]; rfl)]
  · intro args path fs prior progs h
    by_cases hc : (!(args.map_dna.isSome || args.map_aa.isSome)) = true
    · simp only [mainRun] at h
      rw [if_pos hc] at h
      exact absurd (show Outcome.exitedErr = Outcome.finished progs from h) (by simp)
    · simp only [mainRun] at h ⊢
      rw [if_neg hc] at h ⊢
      by_cases hc2 : (prior.isSome && !args.overwrite) = true
      · rw [if_pos hc2] at h
        exact absurd (show Outcome.exitedErr = Outcome.finished progs from h) (by simp)
      · rw [if_neg hc2] at h ⊢
        cases hp : runPipeline args path fs with
        | ok acc =>
          rw [hp] at h
          have h2 : Outcome.finished acc.progs = Outcome.finished progs := h
          injection h2 with hpr
          show (emitStep prior.isSome args.overwrite args.verbose acc.progs).2 =
            some (render progs)
          rw [← hpr]
          rfl
        | exited tr =>
          rw [hp] at h
          exact absurd (show Outcome.exitedErr = Outcome.finished progs from h) (by simp)
        | crashed tr =>
          rw [hp] at h
          exact absurd (show Outcome.crashed = Outcome.finished progs from h) (by simp)
  · intro args path fs prior h
    by_cases hc : (!(args.map_dna.isSome || args.map_aa.isSome)) = true
    · simp only [mainRun]
      rw [if_pos hc]
    · simp only [mainRun] at h ⊢
      rw [if_neg hc] at h ⊢
      by_cases hc2 : (prior.isSome && !args.overwrite) = true
      · rw [if_pos hc2]
      · rw [if_neg hc2] at h ⊢
        cases hp : runPipeline args path fs with
        | ok acc =>
          rw [hp] at h
          rcases h with h | h
          · exact absurd (show Outcome.finished acc.progs = Outcome.exitedErr from h)
              (by simp)
          · exact absurd (show Outcome.finished acc.progs = Outcome.crashed from h)
              (by simp)
        | exited tr => rfl
        | crashed tr => rfl

theorem c6_amended_witness :
    (some "OLD" : Option String).isSome = true ∧ argsPlain.overwrite = false ∧
    mainRun argsPlain (some "/usr/bin") fsFull (some "OLD") =
      ⟨.exitedErr, [], some "OLD"⟩ :=
  ⟨rfl, rfl, c6_amended.1 argsPlain (some "/usr/bin") fsFull (some "OLD") rfl rfl⟩

/-- C7 counterexample: with the destination existing and overwrite not
permitted, the emission step still writes (it produces the rendered
content; it never refuses) — there is no defensive re-check at source
lines 424-428, only the unconditional `open(args.output, 'w')`. -/
theorem c7_counterexample :
    (emitStep true false false [("msa", msa_muscle "muscle")]).2 ≠ none ∧
    (emitStep true false false [("msa", msa_muscle "muscle")]).2 =
      some (render [("msa", msa_muscle "muscle")]) :=
  ⟨by decide, rfl⟩

/-- C7 amended: the emitter performs no re-check of the destination:
for every combination of destination-exists, overwrite and verbose
flags it writes the rendered configuration unconditionally; the only
destination-dependent behaviour at emission time is the informational
message, printed exactly when the file exists AND overwrite was
requested AND verbose mode is on.  The exists-without-overwrite check
happens solely in `check_params`. -/
theorem c7_amended (destExists overwrite verbose : Bool)
    (progs : List (String × List (String × String))) :
    (emitStep destExists overwrite verbose progs).2 = some (render progs) ∧
    ((emitStep destExists overwrite verbose progs).1 = true ↔
      (destExists = true ∧ overwrite = true ∧ verbose = true)) := by
  refine ⟨rfl, ?_⟩
  simp [emitStep, Bool.and_eq_true, and_assoc]

/-- C8 counterexample: the astral species-tree-pass-1 map DOES contain
a version-check option (`-i` pointed at the bundled test data file),
contradicting the claim's "no version-check option". -/
theorem c8_counterexample :
    hasKey tree1_astral "version" = true ∧
    getOpt tree1_astral "version" =
      some "-i /CM/tools/astral-4.11.1/test_data/song_mammals.424.gene.tre" := by
  decide

/-- C8 amended: for the astral choice the stage is built with no call to
the Executable Locator (the trace is unchanged, for every search path
and filesystem), `program_name` is the fixed literal java invocation —
and the map DOES carry a `version` option (whose value invokes the tool
on bundled test data). -/
theorem c8_amended (path : Option String) (fs : FS) (args : Args) (acc : RunAcc)
    (h : args.tree1 = "astral") :
    stageTree1 path fs args acc =
      .ok ⟨acc.progs ++ [("tree1", tree1_astral)], acc.trace⟩ ∧
    getOpt tree1_astral "program_name" =
      some "java -jar /CM/tools/astral-4.11.1/astral.4.11.1.jar" ∧
    hasKey tree1_astral "version" = true := by
  refine ⟨?_, rfl, rfl⟩
  simp only [stageTree1, h]
  rfl

theorem c8_amended_witness :
    argsPlain.tree1 = "astral" ∧
    (stageTree1 (some "/usr/bin") fsFull argsPlain ⟨[], []⟩ =
        .ok ⟨[("tree1", tree1_astral)], []⟩ ∧
      getOpt tree1_astral "program_name" =
        some "java -jar /CM/tools/astral-4.11.1/astral.4.11.1.jar" ∧
      hasKey tree1_astral "version" = true) :=
  ⟨rfl, c8_amended (some "/usr/bin") fsFull argsPlain ⟨[], []⟩ rfl⟩

/-- C9: argument sets accepted by the Parameter Resolver for which
stage construction raises an unhandled exception before any file is
written: `msa=upp` with nucleotide data (string `+=` tuple,
`TypeError`), `msa=upp` with amino-acid data (`+=` on the uninitialised
key `model`, `KeyError`), and `gene_tree1=raxml` with nucleotide data
(the same trailing-comma `TypeError`); in each concrete run the process
crashes and no file is written, and the upp MSA map (either data type)
and the nucleotide raxml gene-tree-pass-1 map can never be built for
any discovered executable name. -/
theorem c9_crashes :
    ((mainRun argsUppN (some "/usr/bin") fsFull none).outcome = .crashed ∧
      (mainRun argsUppN (some "/usr/bin") fsFull none).file = none ∧
      (mainRun argsUppA (some "/usr/bin") fsFull none).outcome = .crashed ∧
      (mainRun argsUppA (some "/usr/bin") fsFull none).file = none ∧
      (mainRun argsGt1RaxmlN (some "/usr/bin") fsFull none).outcome = .crashed ∧
      (mainRun argsGt1RaxmlN (some "/usr/bin") fsFull none).file = none ∧
      check_params argsUppN false = true ∧
      check_params argsUppA false = true ∧
      check_params argsGt1RaxmlN false = true) ∧
    (∀ exe : String, msa_upp exe "n" = .exnCrash ∧ msa_upp exe "a" = .exnCrash ∧
      gene_tree1_raxml exe "n" = .exnCrash) :=
  ⟨by decide, fun exe => ⟨rfl, rfl, rfl⟩⟩

/-- C10 counterexample: a stale PATH component does NOT abort every
executable discovery: here `/bad` is unlistable, yet the search matches
in the earlier `/usr/bin` component and returns normally, raising no
directory-listing error. -/
theorem c10_counterexample :
    fsStale.listdir "/bad" = none ∧
    find_executable "makeblastdb" none (some "/usr/bin:/bad") fsStale =
      .found "makeblastdb" true := by
  decide

/-- C10 amended: (1) whenever the primary search reaches an unlistable
PATH component (no match in earlier components), the unhandled
directory-listing error aborts the whole call — the entry is not
skipped and the fallback is never attempted; (2) with PATH unset and no
fallback, the search loop is skipped and the call ends in the
not-found failure path (`error(..., exit=True)` with the unformatted
message); (3) with PATH unset and a fallback supplied, the call still
never searches and dies inside that not-found path of the unbounded
recursion (`RecursionError`). -/
theorem c10_amended :
    (∀ (exe : String) (rollback : Option String) (p : String) (fs : FS),
        searchDirs exe (splitPath p) fs = .listError →
        find_executable exe rollback (some p) fs = .oserror) ∧
    (∀ (exe : String) (fs : FS),
        find_executable exe none none fs = .errorExit locErrMsg) ∧
    (∀ (exe rb : String) (fs : FS),
        find_executable exe (some rb) none fs = .pyerror) := by
  refine ⟨?_, fun exe fs => rfl, fun exe rb fs => rfl⟩
  intro exe rollback p fs h
  rw [find_executable_some, h]

theorem c10_amended_witness :
    searchDirs "makeblastdb" (splitPath "/bad:/usr/bin") fsStale = .listError ∧
    find_executable "makeblastdb" (some "blast") (some "/bad:/usr/bin") fsStale =
      .oserror :=
  ⟨by decide,
   c10_amended.1 "makeblastdb" (some "blast") "/bad:/usr/bin" fsStale (by decide)⟩

end Phylo
